import Mathlib

/-!
Verification development for the circlaris-mobile-app repository.

The subject of the claims is the dashboard screen (`app/dashboard.tsx`), the
login screen (`app/index.tsx`), the auth context (`context/auth.tsx`) and the
navigation guard (`app/_layout.tsx`).

Modelling conventions:
* A JavaScript `Date` holding a local midnight denotes a calendar day of the
  proleptic Gregorian calendar.  We embed such a day as its rata-die number
  (a `Nat`, days counted from 0000-03-01).  JS `Date` day arithmetic
  (`setDate`, constructor month/day normalization) is exactly day arithmetic
  on that number, and comparison of two `YYYY-MM-DD` key strings (as done by
  `handleDayPress` on `day.dateString`) coincides with the numeric order of
  the corresponding rata-die numbers, so the pending selection is modelled at
  the rata-die level.
* The wall clock ("now") enters as the civil triple `Now` (year, 1-based
  month, day of month); `today`, `firstOfMonth`, `daysAgo` and the preset
  catalog are functions of it, mirroring that the source evaluates them
  lazily at press time.
* String-level formatting (`toApiDate`, the request URL, headers and error
  messages) is embedded separately over the local calendar fields of a JS
  `Date` value (`JSDate`), mirroring `getFullYear` / `getMonth` / `getDate`.
* The numeric KPI fields are opaque data to all claims, so `Figures` carries
  `Int` fields (their float nature is irrelevant here).
-/

namespace Circlaris

/-! ## Gregorian calendar model (rata-die days) -/

/-- Gregorian leap-year rule. -/
def isLeap (y : Nat) : Bool :=
  (y % 4 == 0 && y % 100 != 0) || y % 400 == 0

/-- Length of civil month `m` (1-based) of year `y`. -/
def daysInMonth (y m : Nat) : Nat :=
  if m = 2 then (if isLeap y then 29 else 28)
  else if m = 4 ∨ m = 6 ∨ m = 9 ∨ m = 11 then 30 else 31

/-- The March-based year of civil date (`y`, `m`): January and February
count towards the previous year. -/
def marchYear (y m : Nat) : Nat :=
  if m ≤ 2 then y - 1 else y

/-- Leap days accumulated by the end of February of the years up to `y`. -/
def leapTerms (y : Nat) : Nat :=
  y / 4 - y / 100 + y / 400

/-- Days from March 1 to the first day of civil month `m` within a
March-based year. -/
def monthOffset (m : Nat) : Nat :=
  (153 * ((m + 9) % 12) + 2) / 5

/-- Rata-die number of the civil date (`y`, `m`, `d`): days since
0000-03-01.  Standard closed form of the civil calendar. -/
def rata (y m d : Nat) : Nat :=
  365 * marchYear y m + leapTerms (marchYear y m) + monthOffset m + (d - 1)

/-! ## Date utilities of `app/dashboard.tsx` -/

/-- The current wall-clock date as civil fields (`month` is 1-based). -/
structure Now where
  year : Nat
  month : Nat
  day : Nat
deriving DecidableEq, Repr

/-- `Now` denotes an actual calendar date in the common era (year at least 2,
so that the previous year and, for January, the previous month exist). -/
abbrev validNow (t : Now) : Prop :=
  2 ≤ t.year ∧ 1 ≤ t.month ∧ t.month ≤ 12 ∧ 1 ≤ t.day ∧ t.day ≤ daysInMonth t.year t.month

/-- `today()`: the current date at local midnight. -/
def today (t : Now) : Nat := rata t.year t.month t.day

/-- `firstOfMonth()`: the current date with the day-of-month set to 1. -/
def firstOfMonth (t : Now) : Nat := rata t.year t.month 1

/-- `daysAgo(n)`: today with `setDate(getDate() - n)`, i.e. `n` calendar days
before today.  (Faithful for `n ≤ today t`, which holds for every use in the
source under `validNow`.) -/
def daysAgo (t : Now) (n : Nat) : Nat := today t - n

/-- Civil year of the month preceding the current month
(`new Date(getFullYear(), getMonth() - 1, 1)` normalizes a `-1` month index
to December of the previous year). -/
def prevMonthYear (t : Now) : Nat :=
  if t.month = 1 then t.year - 1 else t.year

/-- Civil month preceding the current month (1-based). -/
def prevMonth (t : Now) : Nat :=
  if t.month = 1 then 12 else t.month - 1

/-- The `Letzter Monat` preset body: `start = new Date(y, m-1, 1)` is the
first day of the previous month (JS month-index normalization), and
`end = new Date(y, m, 0)` is day 0 of the current month, which JS normalizes
to the day before the first of the current month. -/
def letzterMonat (t : Now) : Nat × Nat :=
  (rata (prevMonthYear t) (prevMonth t) 1, rata t.year t.month 1 - 1)

/-- The `PRESETS` catalog of `app/dashboard.tsx`, in source order.  Each
entry is the label together with the `range()` closure evaluated at the
current date `t`. -/
def PRESETS (t : Now) : List (String × (Nat × Nat)) :=
  [ ("Heute", (today t, today t)),
    ("Gestern", (daysAgo t 1, daysAgo t 1)),
    ("Letzte 7 Tage", (daysAgo t 6, today t)),
    ("Letzte 30 Tage", (daysAgo t 29, today t)),
    ("Letzte 90 Tage", (daysAgo t 89, today t)),
    ("Letzte 180 Tage", (daysAgo t 179, today t)),
    ("Letzte 365 Tage", (daysAgo t 364, today t)),
    ("Aktueller Monat", (firstOfMonth t, today t)),
    ("Letzter Monat", letzterMonat t),
    ("Jahr bis heute", (rata t.year 1 1, today t)),
    ("Letztes Jahr", (rata (t.year - 1) 1 1, rata (t.year - 1) 12 31)) ]

/-! ## Calendar lemmas -/

lemma rata_mono_day {y m d d' : Nat} (h : d ≤ d') : rata y m d ≤ rata y m d' := by
  unfold rata
  omega

lemma daysInMonth_pos (y m : Nat) : 1 ≤ daysInMonth y m := by
  unfold daysInMonth
  split
  · split <;> omega
  · split <;> omega

lemma today_ge_365 (t : Now) (h : validNow t) : 365 ≤ today t := by
  obtain ⟨hy, hm1, hm12, hd1, hd2⟩ := h
  have hmy : 1 ≤ marchYear t.year t.month := by
    unfold marchYear
    split <;> omega
  calc 365 = 365 * 1 := rfl
    _ ≤ 365 * marchYear t.year t.month := Nat.mul_le_mul_left 365 hmy
    _ ≤ today t := by unfold today rata; omega

set_option maxHeartbeats 1600000 in
/-- Day number 0 of civil month `m` (the day before its first) is the last
day of the preceding month. -/
lemma rata_first_sub_one (y m : Nat) (hy : 2 ≤ y) (hm1 : 1 ≤ m) (hm12 : m ≤ 12) :
    rata y m 1 - 1 =
      rata (if m = 1 then y - 1 else y) (if m = 1 then 12 else m - 1)
        (daysInMonth (if m = 1 then y - 1 else y) (if m = 1 then 12 else m - 1)) := by
  interval_cases m <;>
    norm_num [rata, marchYear, leapTerms, monthOffset, daysInMonth, isLeap] <;>
    first
      | omega
      | (split
         case isTrue h2 => omega
         case isFalse h2 =>
           push_neg at h2
           omega)

/-- `rata_first_sub_one` restated through `prevMonthYear` / `prevMonth`. -/
lemma rata_last_of_prev_month (t : Now) (h : validNow t) :
    rata t.year t.month 1 - 1 =
      rata (prevMonthYear t) (prevMonth t)
        (daysInMonth (prevMonthYear t) (prevMonth t)) := by
  obtain ⟨hy, hm1, hm12, hd1, hd2⟩ := h
  exact rata_first_sub_one t.year t.month hy hm1 hm12

lemma letzterMonat_fst_le_snd (t : Now) (h : validNow t) :
    (letzterMonat t).1 ≤ (letzterMonat t).2 := by
  show rata (prevMonthYear t) (prevMonth t) 1 ≤ rata t.year t.month 1 - 1
  rw [rata_last_of_prev_month t h]
  exact rata_mono_day (daysInMonth_pos _ _)

lemma firstOfMonth_le_today (t : Now) (h : validNow t) : firstOfMonth t ≤ today t := by
  obtain ⟨hy, hm1, hm12, hd1, hd2⟩ := h
  exact rata_mono_day hd1

lemma rata_jan1_le (y m d : Nat) (hy : 2 ≤ y) (hm1 : 1 ≤ m) (hm12 : m ≤ 12)
    (hd : 1 ≤ d) : rata y 1 1 ≤ rata y m d := by
  interval_cases m <;>
    norm_num [rata, marchYear, leapTerms, monthOffset] <;> omega

lemma jan1_le_today (t : Now) (h : validNow t) : rata t.year 1 1 ≤ today t := by
  obtain ⟨hy, hm1, hm12, hd1, hd2⟩ := h
  exact rata_jan1_le t.year t.month t.day hy hm1 hm12 hd1

lemma lastYear_fst_le_snd (y : Nat) (hy : 2 ≤ y) :
    rata (y - 1) 1 1 ≤ rata (y - 1) 12 31 := by
  norm_num [rata, marchYear, leapTerms, monthOffset]
  omega

-- Concrete sanity checks of the calendar model.
example : rata 2024 6 15 - rata 2024 6 9 = 6 := by decide
example : rata 2024 3 1 - 1 = rata 2024 2 29 := by decide
example : rata 2023 3 1 - 1 = rata 2023 2 28 := by decide

/-! ## Dashboard state machine (`DashboardScreen` in `app/dashboard.tsx`) -/

/-- The `Figures` interface: ten numeric KPI fields.  The numbers are opaque
to every claim, so they are carried as `Int`. -/
structure Figures where
  netSales : Int
  profit : Int
  profitMargin : Int
  purchaseTotalArticles : Int
  averageSellingPriceArticles : Int
  serviceCost : Int
  purchases : Int
  sales : Int
  live : Int
  reserved : Int
deriving DecidableEq, Repr

/-- Outcome of one in-flight figures request, as observed by the promise
chain of the fetch `useEffect`:
* `success f`: `res.ok` and `res.json()` produced a `Figures` record;
* `httpError status`: `!res.ok`, so `Error` with message
  `Server error (<status>)` is thrown and caught;
* `netError m`: the fetch (or body parse) rejected with an error whose
  `message` is `m` (`none` models a nullish message, handled by
  `err.message ?? 'Failed to load figures.'`). -/
inductive FetchOutcome where
  | success (f : Figures)
  | httpError (status : Nat)
  | netError (m : Option String)
deriving DecidableEq, Repr

/-- The message thrown for a non-success HTTP status:
`Server error (<status>)`. -/
def serverErrorMsg (status : Nat) : String :=
  "Server error (" ++ toString status ++ ")"

/-- `handleDayPress` of `app/dashboard.tsx` (the pending-selection part):
given the current `picking` pair and the tapped day key, return the new
`picking` pair.  Nat keys are modelled as `Nat` numbers; the source's
lexicographic comparison `day.dateString >= start` of `YYYY-MM-DD` keys is
exactly `≤` on the corresponding days. -/
def handleDayPress (pickingStart pickingEnd : Option Nat) (d : Nat) :
    Option Nat × Option Nat :=
  match pickingStart, pickingEnd with
  | none, _ => (some d, none)
  | some _, some _ => (some d, none)
  | some s, none => if s ≤ d then (some s, some d) else (some d, none)

/-- The view state of `DashboardScreen`: the committed range, the modal and
pending-selection state, and the fetch state triple
(`figures` / `fetchError` / `fetching`). -/
structure DashState where
  startDate : Nat
  endDate : Nat
  rangeModalOpen : Bool
  activePreset : String
  pickingStart : Option Nat
  pickingEnd : Option Nat
  figures : Option Figures
  fetchError : Option String
  fetching : Bool
deriving DecidableEq, Repr

/-- Committing a new range (`setStartDate` / `setEndDate` and closing the
modal) immediately re-runs the fetch `useEffect`, which sets
`fetching := true` and clears `fetchError` before issuing the request. -/
def commitRange (s : DashState) (a b : Nat) : DashState :=
  { s with startDate := a, endDate := b, rangeModalOpen := false,
           fetching := true, fetchError := none }

/-- State update performed by the promise chain when the in-flight request
settles (`setFigures` / `setFetchError`, then `finally` clears
`fetching`). -/
def resolveFetch (s : DashState) : FetchOutcome → DashState
  | .success f => { s with figures := some f, fetching := false }
  | .httpError status =>
      { s with fetchError := some (serverErrorMsg status), fetching := false }
  | .netError m =>
      { s with fetchError := some (m.getD "Failed to load figures."),
               fetching := false }

/-- User / network events driving `DashboardScreen`. -/
inductive Ev where
  | openModal
  | dismissModal
  | dayPress (d : Nat)
  | applyTap
  | presetTap (i : Fin 11)
  | resolve (o : FetchOutcome)
deriving DecidableEq, Repr

lemma PRESETS_length (t : Now) : (PRESETS t).length = 11 := rfl

/-- The `i`-th catalog entry (label and range) at current date `t`. -/
def presetAt (t : Now) (i : Fin 11) : String × (Nat × Nat) :=
  (PRESETS t).get (Fin.cast (PRESETS_length t).symm i)

/-- One step of `DashboardScreen`:
* `openModal` is `openRangeModal`: it seeds `picking` with the committed
  range (as API keys) and shows the modal;
* `dismissModal` is either the backdrop press or `Abbrechen`;
* `dayPress` is `handleDayPress` (it first clears the active preset);
* `applyTap` is `applyRange`: commits only when both ends are picked,
  closes the modal either way;
* `presetTap` is `applyPreset` on a catalog entry;
* `resolve` is the settlement of an in-flight figures request. -/
def step (t : Now) (s : DashState) : Ev → DashState
  | .openModal =>
      { s with pickingStart := some s.startDate, pickingEnd := some s.endDate,
               rangeModalOpen := true }
  | .dismissModal => { s with rangeModalOpen := false }
  | .dayPress d =>
      let p := handleDayPress s.pickingStart s.pickingEnd d
      { s with activePreset := "", pickingStart := p.1, pickingEnd := p.2 }
  | .applyTap =>
      match s.pickingStart, s.pickingEnd with
      | some a, some b => commitRange s a b
      | _, _ => { s with rangeModalOpen := false }
  | .presetTap i =>
      let pr := presetAt t i
      { commitRange s pr.2.1 pr.2.2 with activePreset := pr.1 }
  | .resolve o => resolveFetch s o

/-- The state right after the initial mount: default committed range and
active preset from the `useState` initializers, with the mount run of the
fetch `useEffect` already applied (`fetching := true`, `fetchError :=
none`, first request in flight). -/
def initState (t : Now) : DashState :=
  { startDate := daysAgo t 29, endDate := today t, rangeModalOpen := false,
    activePreset := "Letzte 30 Tage", pickingStart := none, pickingEnd := none,
    figures := none, fetchError := none, fetching := true }

/-- The dashboard state reached from the initial mount by the event list
`es`. -/
def run (t : Now) (es : List Ev) : DashState :=
  es.foldl (step t) (initState t)

/-- The date range used by the fetch `useEffect` for the request it issues
(query parameters `start` / `end` are built from `startDate` /
`endDate`). -/
def effectRange (s : DashState) : Nat × Nat := (s.startDate, s.endDate)

/-! ## Range invariant (claim C2 machinery) -/

/-- Both the committed range and a fully-picked pending selection are
ordered. -/
def rangeInv (s : DashState) : Prop :=
  s.startDate ≤ s.endDate ∧
    ∀ a b, s.pickingStart = some a → s.pickingEnd = some b → a ≤ b

lemma presetAt_fst_le_snd (t : Now) (h : validNow t) (i : Fin 11) :
    (presetAt t i).2.1 ≤ (presetAt t i).2.2 := by
  fin_cases i
  · exact Nat.le_refl _
  · exact Nat.le_refl _
  · exact Nat.sub_le _ _
  · exact Nat.sub_le _ _
  · exact Nat.sub_le _ _
  · exact Nat.sub_le _ _
  · exact Nat.sub_le _ _
  · exact firstOfMonth_le_today t h
  · exact letzterMonat_fst_le_snd t h
  · exact jan1_le_today t h
  · exact lastYear_fst_le_snd t.year h.1

lemma handleDayPress_ordered (ps pe : Option Nat) (d : Nat) :
    ∀ a b, (handleDayPress ps pe d).1 = some a →
      (handleDayPress ps pe d).2 = some b → a ≤ b := by
  intro a b h1 h2
  cases ps with
  | none => exact absurd h2 (by simp [handleDayPress])
  | some s =>
    cases pe with
    | some e => exact absurd h2 (by simp [handleDayPress])
    | none =>
      by_cases hle : s ≤ d
      · have h1' : some s = some a := by simpa [handleDayPress, hle] using h1
        have h2' : some d = some b := by simpa [handleDayPress, hle] using h2
        cases h1'
        cases h2'
        exact hle
      · exact absurd h2 (by simp [handleDayPress, hle])

lemma step_rangeInv (t : Now) (h : validNow t) (s : DashState) (e : Ev)
    (hs : rangeInv s) : rangeInv (step t s e) := by
  obtain ⟨hc, hp⟩ := hs
  cases e with
  | openModal =>
      refine ⟨hc, ?_⟩
      intro a b ha hb
      have ha' : some s.startDate = some a := ha
      have hb' : some s.endDate = some b := hb
      cases ha'
      cases hb'
      exact hc
  | dismissModal => exact ⟨hc, hp⟩
  | dayPress d =>
      exact ⟨hc, fun a b ha hb =>
        handleDayPress_ordered s.pickingStart s.pickingEnd d a b ha hb⟩
  | applyTap =>
      show rangeInv (match s.pickingStart, s.pickingEnd with
        | some a, some b => commitRange s a b
        | _, _ => { s with rangeModalOpen := false })
      cases hps : s.pickingStart with
      | none =>
          exact ⟨hc, fun a b ha _ =>
            Option.noConfusion (show (none : Option Nat) = some a from ha)⟩
      | some x =>
          cases hpe : s.pickingEnd with
          | none =>
              exact ⟨hc, fun a b _ hb =>
                Option.noConfusion (show (none : Option Nat) = some b from hb)⟩
          | some y =>
              exact ⟨hp x y hps hpe, fun a b ha hb => hp a b ha hb⟩
  | presetTap i =>
      exact ⟨presetAt_fst_le_snd t h i, fun a b ha hb => hp a b ha hb⟩
  | resolve o =>
      cases o <;> exact ⟨hc, hp⟩

lemma foldl_rangeInv (t : Now) (h : validNow t) :
    ∀ (es : List Ev) (s : DashState), rangeInv s →
      rangeInv (es.foldl (step t) s) := by
  intro es
  induction es with
  | nil => intro s hs; exact hs
  | cons e es ih => intro s hs; exact ih (step t s e) (step_rangeInv t h s e hs)

lemma initState_rangeInv (t : Now) (_h : validNow t) : rangeInv (initState t) := by
  refine ⟨Nat.sub_le _ _, ?_⟩
  intro a b ha hb
  simp [initState] at ha

lemma run_rangeInv (t : Now) (h : validNow t) (es : List Ev) :
    rangeInv (run t es) :=
  foldl_rangeInv t h es (initState t) (initState_rangeInv t h)

/-! ## Fetch-state view (claim C9 machinery)

The dashboard body renders by the cascade
`fetching ? <loader> : fetchError ? <error box> : figures ? <cards> : null`.
JS string truthiness is modelled faithfully: a present but empty error
string would be falsy. -/

/-- JS truthiness of the `fetchError : string | null` state. -/
def errTruthy : Option String → Bool
  | none => false
  | some m => !(m == "")

/-- The loader branch of the render cascade is taken. -/
def viewLoading (s : DashState) : Prop := s.fetching = true

/-- The error-box branch of the render cascade is taken. -/
def viewError (s : DashState) : Prop :=
  s.fetching = false ∧ errTruthy s.fetchError = true

/-- The figures branch of the render cascade is taken. -/
def viewSuccess (s : DashState) : Prop :=
  s.fetching = false ∧ errTruthy s.fetchError = false ∧ s.figures.isSome = true

/-- An event is well-formed for the fetch-state analysis when a transport
failure that carries a message carries a non-empty one (true of every
rejection `fetch` / `res.json()` can produce). -/
def okOutcome : Ev → Bool
  | .resolve (.netError (some m)) => !(m == "")
  | _ => true

/-- At any time: a request is in flight, or a truthy error is recorded, or
figures have been received. -/
def liveInv (s : DashState) : Prop :=
  s.fetching = true ∨ errTruthy s.fetchError = true ∨ s.figures.isSome = true

lemma serverErrorMsg_ne_empty (status : Nat) : serverErrorMsg status ≠ "" := by
  intro hempty
  have hlen := congrArg String.length hempty
  rw [serverErrorMsg, String.length_append, String.length_append] at hlen
  have h1 : ("Server error (" : String).length = 14 := rfl
  have h2 : (")" : String).length = 1 := rfl
  have h3 : ("" : String).length = 0 := rfl
  omega

lemma errTruthy_serverErrorMsg (status : Nat) :
    errTruthy (some (serverErrorMsg status)) = true := by
  have := serverErrorMsg_ne_empty status
  simp [errTruthy, this]

lemma step_liveInv (t : Now) (s : DashState) (e : Ev) (he : okOutcome e = true)
    (hs : liveInv s) : liveInv (step t s e) := by
  cases e with
  | openModal => exact hs
  | dismissModal => exact hs
  | dayPress d => exact hs
  | applyTap =>
      show liveInv (match s.pickingStart, s.pickingEnd with
        | some a, some b => commitRange s a b
        | _, _ => { s with rangeModalOpen := false })
      cases s.pickingStart with
      | none => exact hs
      | some x =>
          cases s.pickingEnd with
          | none => exact hs
          | some y => exact Or.inl rfl
  | presetTap i => exact Or.inl rfl
  | resolve o =>
      cases o with
      | success f => exact Or.inr (Or.inr rfl)
      | httpError status => exact Or.inr (Or.inl (errTruthy_serverErrorMsg status))
      | netError m =>
          cases m with
          | none =>
              refine Or.inr (Or.inl ?_)
              show errTruthy (some "Failed to load figures.") = true
              decide
          | some msg =>
              refine Or.inr (Or.inl ?_)
              show (!(msg == "")) = true
              exact he

lemma foldl_liveInv (t : Now) :
    ∀ (es : List Ev) (s : DashState), liveInv s →
      (∀ e ∈ es, okOutcome e = true) → liveInv (es.foldl (step t) s) := by
  intro es
  induction es with
  | nil => intro s hs _; exact hs
  | cons e es ih =>
      intro s hs hok
      exact ih (step t s e) (step_liveInv t s e (hok e (by simp)) hs)
        (fun e' he' => hok e' (by simp [he']))

lemma run_liveInv (t : Now) (es : List Ev)
    (hok : ∀ e ∈ es, okOutcome e = true) : liveInv (run t es) :=
  foldl_liveInv t es (initState t) (Or.inl rfl) hok

/-! ## Key formatting and the figures request (string level)

`toApiDate` of `app/dashboard.tsx` reads `getFullYear()`, `getMonth()` and
`getDate()`, all of which report *local* calendar fields.  A JS `Date`
value is modelled here by those local fields plus the components that vary
with how the value was constructed (time of day, zone offset), which
`toApiDate` must ignore. -/

/-- Local view of a JS `Date` value: `monthIndex` is the 0-based
`getMonth()`, `day` is the 1-based `getDate()`.  `hours`/`minutes` and the
zone offset distinguish values built in different ways that denote the same
local calendar day. -/
structure JSDate where
  year : Nat
  monthIndex : Nat
  day : Nat
  hours : Nat
  minutes : Nat
  tzOffsetMin : Int
deriving DecidableEq, Repr

/-- `String.prototype.padStart(2, '0')`. -/
def padStart2 (s : String) : String :=
  if 2 ≤ s.length then s else String.mk (List.replicate (2 - s.length) '0') ++ s

/-- `toApiDate` of `app/dashboard.tsx`: local `YYYY-MM-DD` with zero-padded
month and day. -/
def toApiDate (dt : JSDate) : String :=
  toString dt.year ++ "-" ++ padStart2 (toString (dt.monthIndex + 1)) ++ "-" ++
    padStart2 (toString dt.day)

/-- One outgoing HTTP request. -/
structure FetchRequest where
  method : String
  url : String
  headers : List (String × String)
deriving DecidableEq, Repr

/-- `FIGURES_URL`: base URL and API path segment come from the environment
(`EXPO_PUBLIC_API_BASE_URL` / `EXPO_PUBLIC_API_PREFIX`), so they are
parameters here. -/
def figuresUrl (base pfx : String) : String := base ++ pfx ++ "/figures"

/-- The single GET request issued by the fetch `useEffect` for a committed
range and token. -/
def figuresRequest (base pfx tok : String) (startD endD : JSDate) : FetchRequest :=
  { method := "GET",
    url := figuresUrl base pfx ++ "?start=" ++ toApiDate startD ++ "&end=" ++
      toApiDate endD,
    headers := [("Authorization", "Bearer " ++ tok)] }

/-- What one run of the fetch `useEffect` does before any response arrives:
enter the loading state, clear a previous error, and issue exactly one
request. -/
structure EffectStart where
  fetching : Bool
  fetchError : Option String
  requests : List FetchRequest
deriving DecidableEq, Repr

/-- The synchronous part of the fetch `useEffect`. -/
def figuresEffect (base pfx tok : String) (startD endD : JSDate) : EffectStart :=
  { fetching := true, fetchError := none,
    requests := [figuresRequest base pfx tok startD endD] }

/-! ## Login (`app/index.tsx`), auth context (`context/auth.tsx`) and
navigation guard (`app/_layout.tsx`) -/

/-- Minimal JSON values, enough for the login response body. -/
inductive JsonVal where
  | null
  | bool (b : Bool)
  | num (n : Int)
  | str (s : String)
  | obj (fields : List (String × JsonVal))

/-- Optional property access `v?.k`: `none` models JS `undefined` (missing
field, nullish receiver, or access on a non-object primitive). -/
def getField : JsonVal → String → Option JsonVal
  | .obj fields, k => (fields.find? (fun p => p.1 == k)).map (fun p => p.2)
  | _, _ => none

/-- Plain (non-optional) property access `v.k`: on a `null` receiver it
throws a TypeError, modelled as the outer `none`; otherwise it yields the
field value (`some none` is JS `undefined`: a missing field, or access on a
non-object primitive, which does not throw). -/
def getFieldStrict : JsonVal → String → Option (Option JsonVal)
  | .null, _ => none
  | .obj fields, k => some ((fields.find? (fun p => p.1 == k)).map (fun p => p.2))
  | _, _ => some none

/-- Collapse JS nullish values (both `undefined` and `null`), as the `??`
operator does. -/
def nonNullish : Option JsonVal → Option JsonVal
  | none => none
  | some .null => none
  | some v => some v

/-- The token extraction of `handleLogin`:
`data?.token ?? data?.access_token ?? data?.data?.token ?? ''`. -/
def extractTokenVal (data : JsonVal) : JsonVal :=
  ((nonNullish (getField data "token")).or
    ((nonNullish (getField data "access_token")).or
      (nonNullish ((getField data "data").bind
        (fun d => getField d "token"))))).getD (.str "")

/-- JS truthiness of a JSON value (`''`, `0`, `false`, `null` are falsy). -/
def truthyVal : JsonVal → Bool
  | .null => false
  | .bool b => b
  | .num n => !(n == 0)
  | .str s => !(s == "")
  | .obj _ => true

/-- The error text of a failed login:
`data?.message || data?.error || Login failed (<status>).`. -/
def loginFailMsg (data : JsonVal) (status : Nat) : JsonVal :=
  let msg := (getField data "message").getD .null
  let err := (getField data "error").getD .null
  if truthyVal msg then msg
  else if truthyVal err then err
  else .str ("Login failed (" ++ toString status ++ ").")

/-- What `handleLogin` does with the submitted form and the network's
answer. -/
inductive LoginAction where
  | validationError (msg : String)
  | serverError (msg : JsonVal)
  | transportError (msg : String)
  | signedIn (token : JsonVal) (customer : Option JsonVal)

/-- The network's answer to the login POST.  `body = none` models a
response whose body is not valid JSON; `response.json().catch(() => ({}))`
then substitutes the empty object. -/
inductive LoginResponse where
  | response (ok : Bool) (status : Nat) (body : Option JsonVal)
  | networkFailure

/-- The whitespace set of the ECMAScript `TrimString` operation:
`WhiteSpace` (tab, VT, FF, ZWNBSP and the Unicode space-separator
category) together with `LineTerminator` (LF, CR, LS, PS). -/
def jsWhitespace (c : Char) : Bool :=
  c == '\t' || c == '\n' || c == '\u000B' || c == '\u000C' || c == '\r' ||
  c == ' ' || c == '\u00A0' || c == '\u1680' ||
  c == '\u2000' || c == '\u2001' || c == '\u2002' || c == '\u2003' ||
  c == '\u2004' || c == '\u2005' || c == '\u2006' || c == '\u2007' ||
  c == '\u2008' || c == '\u2009' || c == '\u200A' ||
  c == '\u2028' || c == '\u2029' || c == '\u202F' || c == '\u205F' ||
  c == '\u3000' || c == '\uFEFF'

/-- `String.prototype.trim()`: strip leading and trailing JS whitespace. -/
def jsTrim (s : String) : String :=
  String.mk (((s.data.dropWhile jsWhitespace).reverse.dropWhile
    jsWhitespace).reverse)

/-- The success branch of `handleLogin` (`index.tsx:60-63`): the token is
extracted through optional chains (which never throw), but the subsequent
`signIn(token, data.customer)` performs a plain `data.customer` access — on
a JSON-`null` body it throws a TypeError, which the surrounding try/catch
reports as the generic connection error, and `signIn` is never called. -/
def loginSuccess (data : JsonVal) : LoginAction :=
  match getFieldStrict data "customer" with
  | none =>
      .transportError "Unable to connect. Please check your internet connection."
  | some customer => .signedIn (extractTokenVal data) customer

/-- `handleLogin` of `app/index.tsx`. -/
def handleLogin (email password : String) (resp : LoginResponse) : LoginAction :=
  if jsTrim email = "" ∨ jsTrim password = "" then
    .validationError "Please enter your email and password."
  else
    match resp with
    | .networkFailure =>
        .transportError "Unable to connect. Please check your internet connection."
    | .response ok status body =>
        let data := body.getD (.obj [])
        if ok then loginSuccess data
        else .serverError (loginFailMsg data status)

/-- The auth context state (`token` / `customer` of `AuthProvider`). -/
structure AuthState where
  token : Option String
  customer : Option JsonVal

/-- `signIn` of `context/auth.tsx`: stores and exposes the new token and
customer. -/
def signIn (_s : AuthState) (newToken : String) (newCustomer : Option JsonVal) :
    AuthState :=
  { token := some newToken, customer := newCustomer }

/-- `signOut` of `context/auth.tsx`. -/
def signOut (_s : AuthState) : AuthState :=
  { token := none, customer := none }

/-- JS truthiness of the `token : string | null` context value, as tested by
`NavigationGuard` (`if (token && ...)`): an empty string is falsy. -/
def tokenTruthy : Option String → Bool
  | none => false
  | some s => !(s == "")

/-- A redirect decision of `NavigationGuard`. -/
inductive GuardAction where
  | toDashboard
  | toLogin
  | stay
deriving DecidableEq, Repr

/-- `NavigationGuard` of `app/_layout.tsx`. -/
def navigationGuard (isLoading : Bool) (token : Option String)
    (onDashboard : Bool) : GuardAction :=
  if isLoading then .stay
  else if tokenTruthy token && !onDashboard then .toDashboard
  else if !(tokenTruthy token) && onDashboard then .toLogin
  else .stay

/-! ## Concrete data used by witnesses and counterexamples -/

/-- A concrete current date, 2024-06-15. -/
def demoNow : Now := ⟨2024, 6, 15⟩

/-- A concrete `Figures` record. -/
def demoFigures : Figures := ⟨1200, 300, 25, 1000, 150, 50, 10, 8, 5, 3⟩

/-- A concrete event trace: open the modal, pick 2024-06-03 then 2024-06-10,
apply, receive figures, reopen, apply the `Letzter Monat` preset, then a
503 answer arrives. -/
def demoEvents : List Ev :=
  [ .openModal, .dayPress (rata 2024 6 3), .dayPress (rata 2024 6 10),
    .applyTap, .resolve (.success demoFigures), .openModal, .presetTap 8,
    .resolve (.httpError 503) ]

/-- A concrete event trace containing a successful fetch followed by a
failed one. -/
def demoEventsC9 : List Ev :=
  [ .resolve (.success demoFigures), .presetTap 3, .resolve (.httpError 500) ]

/-! ## Claims -/

/-- Claim C1: on a day tap `d` against the pending selection `(s, e)`,
`handleDayPress` starts a new selection `(d, absent)` when `s` is absent or
both ends are present; when only `s` is present it completes the range to
`(s, d)` if `d ≥ s` (including `d = s`, a one-day range) and restarts with
`(d, absent)` if `d < s`. -/
theorem C1_handleDayPress_cases (ps pe : Option Nat) (d : Nat) :
    ((ps = none ∨ (ps ≠ none ∧ pe ≠ none)) →
        handleDayPress ps pe d = (some d, none)) ∧
    (∀ s, ps = some s → pe = none → s ≤ d →
        handleDayPress ps pe d = (some s, some d)) ∧
    (∀ s, ps = some s → pe = none → d < s →
        handleDayPress ps pe d = (some d, none)) := by
  refine ⟨?_, ?_, ?_⟩
  · rintro (rfl | ⟨h1, h2⟩)
    · rfl
    · cases ps with
      | none => rfl
      | some s =>
          cases pe with
          | none => exact absurd rfl h2
          | some e => rfl
  · intro s hps hpe hle
    subst hps
    subst hpe
    simp [handleDayPress, hle]
  · intro s hps hpe hlt
    subst hps
    subst hpe
    have hnle : ¬(s ≤ d) := by omega
    simp [handleDayPress, hnle]

/-- Witness for C1 at concrete selections and taps. -/
theorem C1_handleDayPress_cases_witness :
    handleDayPress none none 5 = (some 5, none) ∧
    handleDayPress (some 3) (some 8) 2 = (some 2, none) ∧
    handleDayPress (some 10) none 12 = (some 10, some 12) ∧
    handleDayPress (some 4) none 4 = (some 4, some 4) ∧
    handleDayPress (some 10) none 7 = (some 7, none) :=
  ⟨(C1_handleDayPress_cases none none 5).1 (Or.inl rfl),
   (C1_handleDayPress_cases (some 3) (some 8) 2).1
     (Or.inr ⟨by simp, by simp⟩),
   (C1_handleDayPress_cases (some 10) none 12).2.1 10 rfl rfl (by decide),
   (C1_handleDayPress_cases (some 4) none 4).2.1 4 rfl rfl (by decide),
   (C1_handleDayPress_cases (some 10) none 7).2.2 10 rfl rfl (by decide)⟩

/-- Claim C2: every committed dashboard range reachable from the initial
state through modal opens, day taps, applies, preset applications (and
request settlements) satisfies `startDate ≤ endDate`. -/
theorem C2_committed_range_invariant (t : Now) (h : validNow t) (es : List Ev) :
    (run t es).startDate ≤ (run t es).endDate :=
  (run_rangeInv t h es).1

/-- Witness for C2 on a concrete trace through the modal, a manual
selection, a preset and a fetch settlement. -/
theorem C2_committed_range_invariant_witness :
    validNow demoNow ∧
    (run demoNow demoEvents).startDate ≤ (run demoNow demoEvents).endDate :=
  ⟨by decide, C2_committed_range_invariant demoNow (by decide) demoEvents⟩

/-- Claim C3 as stated is false: on initial mount the committed range is
the last-30-days window, not current-month-to-date.  At current date
2024-06-15 the initial `startDate` is 2024-05-17, not `firstOfMonth()` =
2024-06-01. -/
theorem C3_default_range_not_month_to_date :
    ¬((initState demoNow).startDate = firstOfMonth demoNow ∧
      (initState demoNow).endDate = today demoNow) := by
  decide

/-- Claim C3, amended: on initial mount the default committed range is the
last-30-days window — `startDate = daysAgo(29)` (so `startDate + 29 =
today`), `endDate = today()`, with active preset `Letzte 30 Tage` — and the
first figures fetch is issued for exactly that range (loading, no
error). -/
theorem C3_default_range_last30 (t : Now) (h : validNow t) :
    (initState t).startDate = daysAgo t 29 ∧
    (initState t).endDate = today t ∧
    (initState t).startDate + 29 = today t ∧
    (initState t).activePreset = "Letzte 30 Tage" ∧
    (initState t).fetching = true ∧
    (initState t).fetchError = none ∧
    effectRange (initState t) = (daysAgo t 29, today t) := by
  have h365 := today_ge_365 t h
  refine ⟨rfl, rfl, ?_, rfl, rfl, rfl, rfl⟩
  show today t - 29 + 29 = today t
  omega

/-- Witness for C3 (amended) at 2024-06-15. -/
theorem C3_default_range_last30_witness :
    validNow demoNow ∧ (initState demoNow).startDate + 29 = today demoNow :=
  ⟨by decide, (C3_default_range_last30 demoNow (by decide)).2.2.1⟩

/-- Claim C4 as stated is false: `openRangeModal` does not reset the
pending selection to `(absent, absent)`; at the concrete initial state both
ends are present afterwards. -/
theorem C4_openModal_picking_not_reset :
    ¬((step demoNow (initState demoNow) .openModal).pickingStart = none ∧
      (step demoNow (initState demoNow) .openModal).pickingEnd = none) := by
  decide

/-- Claim C4, amended: whenever the modal opens, the pending selection is
seeded with the committed range — `picking.start` and `picking.end` hold
the committed `startDate` and `endDate` (as API day keys) — rather than
being reset to absent; the committed range itself is unchanged. -/
theorem C4_openModal_seeds_committed_range (t : Now) (s : DashState) :
    (step t s .openModal).pickingStart = some s.startDate ∧
    (step t s .openModal).pickingEnd = some s.endDate ∧
    (step t s .openModal).rangeModalOpen = true ∧
    (step t s .openModal).startDate = s.startDate ∧
    (step t s .openModal).endDate = s.endDate :=
  ⟨rfl, rfl, rfl, rfl, rfl⟩

/-- Claim C5: each `Letzte N Tage` preset (N in 7, 30, 90, 180, 365)
evaluated at current date `t` yields `[today-(N-1), today]`, an inclusive
window of exactly N calendar days ending today; on 2024-06-15 the 7-day
window starts 2024-06-09. -/
theorem C5_last_n_days_presets :
    (∀ t : Now, validNow t →
      ((PRESETS t)[2]? = some ("Letzte 7 Tage", (daysAgo t 6, today t)) ∧
        daysAgo t 6 + 6 = today t) ∧
      ((PRESETS t)[3]? = some ("Letzte 30 Tage", (daysAgo t 29, today t)) ∧
        daysAgo t 29 + 29 = today t) ∧
      ((PRESETS t)[4]? = some ("Letzte 90 Tage", (daysAgo t 89, today t)) ∧
        daysAgo t 89 + 89 = today t) ∧
      ((PRESETS t)[5]? = some ("Letzte 180 Tage", (daysAgo t 179, today t)) ∧
        daysAgo t 179 + 179 = today t) ∧
      ((PRESETS t)[6]? = some ("Letzte 365 Tage", (daysAgo t 364, today t)) ∧
        daysAgo t 364 + 364 = today t)) ∧
    daysAgo ⟨2024, 6, 15⟩ 6 = rata 2024 6 9 ∧
    today ⟨2024, 6, 15⟩ = rata 2024 6 15 := by
  refine ⟨?_, by decide, by decide⟩
  intro t ht
  have h365 := today_ge_365 t ht
  have hsub : ∀ k : Nat, k ≤ 365 → daysAgo t k + k = today t := by
    intro k hk
    show today t - k + k = today t
    omega
  exact ⟨⟨rfl, hsub 6 (by omega)⟩, ⟨rfl, hsub 29 (by omega)⟩,
    ⟨rfl, hsub 89 (by omega)⟩, ⟨rfl, hsub 179 (by omega)⟩,
    ⟨rfl, hsub 364 (by omega)⟩⟩

/-- Witness for C5 at 2024-06-15. -/
theorem C5_last_n_days_presets_witness :
    validNow demoNow ∧
    ((PRESETS demoNow)[2]? =
        some ("Letzte 7 Tage", (daysAgo demoNow 6, today demoNow)) ∧
      daysAgo demoNow 6 + 6 = today demoNow) :=
  ⟨by decide, (C5_last_n_days_presets.1 demoNow (by decide)).1⟩

/-- Claim C6: the `Letzter Monat` preset evaluated at any valid current
date yields the closed range from the first to the last day of the
previous month (month lengths and leap years included); at current date
2024-03-10 it yields 2024-02-01 .. 2024-02-29. -/
theorem C6_last_month_preset :
    (∀ t : Now, validNow t →
      (PRESETS t)[8]? = some ("Letzter Monat", letzterMonat t) ∧
      letzterMonat t =
        (rata (prevMonthYear t) (prevMonth t) 1,
         rata (prevMonthYear t) (prevMonth t)
           (daysInMonth (prevMonthYear t) (prevMonth t)))) ∧
    letzterMonat ⟨2024, 3, 10⟩ = (rata 2024 2 1, rata 2024 2 29) := by
  refine ⟨?_, by decide⟩
  intro t ht
  refine ⟨rfl, ?_⟩
  show (rata (prevMonthYear t) (prevMonth t) 1, rata t.year t.month 1 - 1) = _
  rw [rata_last_of_prev_month t ht]

/-- Witness for C6 at 2024-03-10 (a leap year). -/
theorem C6_last_month_preset_witness :
    validNow ⟨2024, 3, 10⟩ ∧
    letzterMonat ⟨2024, 3, 10⟩ =
      (rata (prevMonthYear ⟨2024, 3, 10⟩) (prevMonth ⟨2024, 3, 10⟩) 1,
       rata (prevMonthYear ⟨2024, 3, 10⟩) (prevMonth ⟨2024, 3, 10⟩)
         (daysInMonth (prevMonthYear ⟨2024, 3, 10⟩) (prevMonth ⟨2024, 3, 10⟩))) :=
  ⟨by decide, (C6_last_month_preset.1 ⟨2024, 3, 10⟩ (by decide)).2⟩

/-- Claim C7: `toApiDate` formats a date value as `YYYY-MM-DD` from its
local calendar fields with zero-padded month and day, and it depends only
on those local fields — two date values denoting the same local calendar
day (regardless of time of day or zone-offset provenance) produce the same
key. -/
theorem C7_toApiDate_local_fields :
    (∀ a b : JSDate, a.year = b.year → a.monthIndex = b.monthIndex →
        a.day = b.day → toApiDate a = toApiDate b) ∧
    (∀ dt : JSDate, dt.monthIndex < 12 → 1 ≤ dt.day → dt.day ≤ 31 →
        toApiDate dt =
          toString dt.year ++ "-" ++ padStart2 (toString (dt.monthIndex + 1)) ++
            "-" ++ padStart2 (toString dt.day) ∧
        (padStart2 (toString (dt.monthIndex + 1))).length = 2 ∧
        (padStart2 (toString dt.day)).length = 2) := by
  constructor
  · intro a b hy hm hd
    unfold toApiDate
    rw [hy, hm, hd]
  · intro dt hm _hd1 hd2
    refine ⟨rfl, ?_, ?_⟩
    · have hall : ∀ n : Nat, n < 13 → (padStart2 (toString n)).length = 2 := by
        decide
      exact hall (dt.monthIndex + 1) (by omega)
    · have hall : ∀ n : Nat, n < 32 → (padStart2 (toString n)).length = 2 := by
        decide
      exact hall dt.day (by omega)

/-- Witness for C7: the same local day built at midnight and at 23:59 in a
different zone offset yields the same key, and June is zero-padded. -/
theorem C7_toApiDate_local_fields_witness :
    toApiDate ⟨2024, 5, 9, 0, 0, 0⟩ = toApiDate ⟨2024, 5, 9, 23, 59, -120⟩ ∧
    (padStart2 (toString (5 + 1))).length = 2 ∧
    toApiDate ⟨2024, 5, 9, 0, 0, 0⟩ = "2024-06-09" :=
  ⟨C7_toApiDate_local_fields.1 ⟨2024, 5, 9, 0, 0, 0⟩ ⟨2024, 5, 9, 23, 59, -120⟩
      rfl rfl rfl,
   (C7_toApiDate_local_fields.2 ⟨2024, 5, 9, 0, 0, 0⟩ (by decide) (by decide)
      (by decide)).2.1,
   by decide⟩

/-- Claim C8: for every committed range and token the fetch effect enters
the loading state with any previous error cleared and issues exactly one
GET request whose URL carries `start`/`end` in API-key format and whose
header is `Authorization: Bearer <token>`; every non-success HTTP status S
produces the error state with exactly the message `Server error (S)` —
e.g. 503 yields `Server error (503)`. -/
theorem C8_figures_fetch_contract :
    (∀ (base pfx tok : String) (startD endD : JSDate),
        figuresEffect base pfx tok startD endD =
          { fetching := true, fetchError := none,
            requests := [figuresRequest base pfx tok startD endD] } ∧
        (figuresEffect base pfx tok startD endD).requests.length = 1 ∧
        figuresRequest base pfx tok startD endD =
          { method := "GET",
            url := base ++ pfx ++ "/figures" ++ "?start=" ++ toApiDate startD ++
              "&end=" ++ toApiDate endD,
            headers := [("Authorization", "Bearer " ++ tok)] }) ∧
    (∀ (s : DashState) (a b : Nat),
        (commitRange s a b).fetching = true ∧
        (commitRange s a b).fetchError = none) ∧
    (∀ (s : DashState) (status : Nat),
        (resolveFetch s (.httpError status)).fetchError =
          some (serverErrorMsg status) ∧
        (resolveFetch s (.httpError status)).fetching = false) ∧
    serverErrorMsg 503 = "Server error (503)" ∧
    toApiDate ⟨2024, 5, 1, 0, 0, 0⟩ = "2024-06-01" ∧
    toApiDate ⟨2024, 5, 30, 0, 0, 0⟩ = "2024-06-30" :=
  ⟨fun _ _ _ _ _ => ⟨rfl, rfl, rfl⟩,
   fun _ _ _ => ⟨rfl, rfl⟩,
   fun _ _ => ⟨rfl, rfl⟩,
   by decide, by decide, by decide⟩

/-- Claim C9: in every reachable dashboard state (over event traces whose
transport failures carry the non-empty messages the runtime produces),
exactly one of the three render states — loading, error, success — holds,
including after a successful fetch followed by a failed one. -/
theorem C9_fetch_state_exactly_one (t : Now) (es : List Ev)
    (hok : ∀ e ∈ es, okOutcome e = true) :
    (viewLoading (run t es) ∧ ¬viewError (run t es) ∧
        ¬viewSuccess (run t es)) ∨
    (¬viewLoading (run t es) ∧ viewError (run t es) ∧
        ¬viewSuccess (run t es)) ∨
    (¬viewLoading (run t es) ∧ ¬viewError (run t es) ∧
        viewSuccess (run t es)) := by
  have hlive := run_liveInv t es hok
  cases hf : (run t es).fetching with
  | true =>
      refine Or.inl ⟨hf, ?_, ?_⟩
      · intro hE
        obtain ⟨hE1, _⟩ := hE
        rw [hE1] at hf
        exact Bool.noConfusion hf
      · intro hS
        obtain ⟨hS1, _⟩ := hS
        rw [hS1] at hf
        exact Bool.noConfusion hf
  | false =>
      cases herr : errTruthy (run t es).fetchError with
      | true =>
          refine Or.inr (Or.inl ⟨?_, ⟨hf, herr⟩, ?_⟩)
          · intro hL
            have hL' : (run t es).fetching = true := hL
            rw [hf] at hL'
            exact Bool.noConfusion hL'
          · intro hS
            obtain ⟨_, hS2, _⟩ := hS
            rw [hS2] at herr
            exact Bool.noConfusion herr
      | false =>
          have hsome : (run t es).figures.isSome = true := by
            rcases hlive with h1 | h2 | h3
            · rw [h1] at hf
              exact Bool.noConfusion hf
            · rw [h2] at herr
              exact Bool.noConfusion herr
            · exact h3
          refine Or.inr (Or.inr ⟨?_, ?_, ⟨hf, herr, hsome⟩⟩)
          · intro hL
            have hL' : (run t es).fetching = true := hL
            rw [hf] at hL'
            exact Bool.noConfusion hL'
          · intro hE
            obtain ⟨_, hE2⟩ := hE
            rw [hE2] at herr
            exact Bool.noConfusion herr

/-- Witness for C9 on a trace with a success followed by a failure. -/
theorem C9_fetch_state_exactly_one_witness :
    (∀ e ∈ demoEventsC9, okOutcome e = true) ∧
    ((viewLoading (run demoNow demoEventsC9) ∧
        ¬viewError (run demoNow demoEventsC9) ∧
        ¬viewSuccess (run demoNow demoEventsC9)) ∨
      (¬viewLoading (run demoNow demoEventsC9) ∧
        viewError (run demoNow demoEventsC9) ∧
        ¬viewSuccess (run demoNow demoEventsC9)) ∨
      (¬viewLoading (run demoNow demoEventsC9) ∧
        ¬viewError (run demoNow demoEventsC9) ∧
        viewSuccess (run demoNow demoEventsC9))) :=
  ⟨by decide, C9_fetch_state_exactly_one demoNow demoEventsC9 (by decide)⟩

/-- Claim C10 as stated is false in its "treated as signed in" part: on a
successful login whose body carries no token, `signIn` is indeed called
with the empty string and no error is reported, but `NavigationGuard`
treats the empty token as falsy — a user on the dashboard is redirected
back to the login screen, and a user on the login screen is not redirected
to the dashboard. -/
theorem C10_empty_token_not_signed_in :
    handleLogin "user@example.com" "pw"
        (.response true 200 (some (.obj [("customer", .str "Acme")]))) =
      .signedIn (.str "") (some (.str "Acme")) ∧
    navigationGuard false
        ((signIn ⟨none, none⟩ "" (some (.str "Acme"))).token) true =
      .toLogin ∧
    navigationGuard false
        ((signIn ⟨none, none⟩ "" (some (.str "Acme"))).token) false =
      .stay :=
  ⟨rfl, rfl, rfl⟩

-- Fidelity check of the collapsed-throw path: an HTTP-ok response whose
-- JSON body is the literal `null` throws on the plain `data.customer`
-- access, so the catch reports the connection error and `signIn` is never
-- called.
example :
    handleLogin "a@b.c" "pw" (.response true 200 (some .null)) =
      .transportError "Unable to connect. Please check your internet connection." :=
  rfl

-- Fidelity check of the JS whitespace set: an email consisting of a
-- no-break space alone is trimmed to empty and takes the validation path.
example :
    handleLogin "\u00A0" "pw" (.response true 200 (some (.obj []))) =
      .validationError "Please enter your email and password." :=
  rfl

/-- Claim C10, amended: if the login request succeeds, the `data.customer`
access does not throw (the JSON body is not the literal `null`; a null
body instead lands in the catch as the generic connection error before
`signIn` runs), and the body has no token at `token`, `access_token` or
`data.token`, then `handleLogin` still calls `signIn` with the empty
string and reports no error; the auth context then holds the empty token,
but since the empty string is falsy the `NavigationGuard` does not treat
the user as signed in — it never redirects them to the dashboard. -/
theorem C10_empty_token_login (email password : String) (status : Nat)
    (body : JsonVal) (cust : Option JsonVal) (od : Bool)
    (he : jsTrim email ≠ "") (hpw : jsTrim password ≠ "")
    (h1 : nonNullish (getField body "token") = none)
    (h2 : nonNullish (getField body "access_token") = none)
    (h3 : nonNullish ((getField body "data").bind
        (fun d => getField d "token")) = none)
    (h4 : getFieldStrict body "customer" = some cust) :
    handleLogin email password (.response true status (some body)) =
      .signedIn (.str "") cust ∧
    (signIn ⟨none, none⟩ "" cust).token = some "" ∧
    tokenTruthy (some "") = false ∧
    navigationGuard false (some "") od ≠ .toDashboard := by
  have hcond : ¬(jsTrim email = "" ∨ jsTrim password = "") := by
    push_neg
    exact ⟨he, hpw⟩
  have hex : extractTokenVal body = .str "" := by
    unfold extractTokenVal
    rw [h1, h2, h3]
    rfl
  have hfirst : handleLogin email password (.response true status (some body)) =
      loginSuccess body := by
    unfold handleLogin
    rw [if_neg hcond]
    rfl
  have hsuccess : loginSuccess body = .signedIn (.str "") cust := by
    unfold loginSuccess
    rw [h4, hex]
  refine ⟨?_, rfl, rfl, ?_⟩
  · rw [hfirst, hsuccess]
  · cases od <;> decide

/-- Witness for C10 (amended) on a token-free object success body. -/
theorem C10_empty_token_login_witness :
    jsTrim "a@b.c" ≠ "" ∧ jsTrim "pw" ≠ "" ∧
    nonNullish (getField (.obj []) "token") = none ∧
    nonNullish (getField (.obj []) "access_token") = none ∧
    nonNullish ((getField (.obj []) "data").bind
      (fun d => getField d "token")) = none ∧
    getFieldStrict (.obj []) "customer" = some none ∧
    (handleLogin "a@b.c" "pw" (.response true 200 (some (.obj []))) =
        .signedIn (.str "") none ∧
      (signIn ⟨none, none⟩ "" none).token = some "" ∧
      tokenTruthy (some "") = false ∧
      navigationGuard false (some "") false ≠ .toDashboard) :=
  ⟨by decide, by decide, rfl, rfl, rfl, rfl,
   C10_empty_token_login "a@b.c" "pw" 200 (.obj []) none false (by decide)
     (by decide) rfl rfl rfl rfl⟩

end Circlaris
